import Mathlib

/-!
Verification of the GraphicsEngine repository (OBJ/MTL model loader and
affine-transform math) against its natural-language specification.

The JavaScript source is shallowly embedded: numbers (IEEE doubles in the
source) are modelled as exact rationals, the standard real-number
abstraction of floating point; `Math.sqrt` / `Math.cos` / `Math.sin` are
abstracted as an explicit record of functions (`MathLib`), since claims
about them only compare expressions built from the same calls; JavaScript
exceptions are modelled with `Except`.  Out-of-range array reads, which in
JavaScript yield `undefined`/`NaN`, are modelled by `List.getD` with
default 0; no claim below exercises such a read with a value-dependent
outcome unless stated at the theorem.
-/

namespace GraphicsEngine

deriving instance DecidableEq for Except

/-- Abstraction of the JavaScript Math library functions used by the code.
The source calls Math.sqrt, Math.cos and Math.sin on doubles; theorems
that depend only on the computation structure hold for every
interpretation of these functions. -/
structure MathLib where
  sqrt : ℚ → ℚ
  cos : ℚ → ℚ
  sin : ℚ → ℚ

/-- Embedding of class Vector3D (src/main.js:479-640).  The source stores
the three components in an array field `elements` with getters x,y,z; we
store them as named fields. -/
structure Vector3D where
  x : ℚ := 0
  y : ℚ := 0
  z : ℚ := 0
deriving DecidableEq

namespace Vector3D

/-- Source getElements(): the xyz coordinates as a 3-element array. -/
def getElements (v : Vector3D) : List ℚ := [v.x, v.y, v.z]

/-- Source magnitude() (src/main.js:494-496): Math.sqrt of the sum of
squared components. -/
def magnitude (M : MathLib) (v : Vector3D) : ℚ :=
  M.sqrt (v.x * v.x + v.y * v.y + v.z * v.z)

/-- Source normalize() (src/main.js:502-506): if the magnitude is 0 the
zero vector is returned, otherwise each component is divided by it. -/
def normalize (M : MathLib) (v : Vector3D) : Vector3D :=
  let len := magnitude M v
  if len = 0 then {} else ⟨v.x / len, v.y / len, v.z / len⟩

/-- Source add(other). -/
def add (v o : Vector3D) : Vector3D := ⟨v.x + o.x, v.y + o.y, v.z + o.z⟩

/-- Source subtract(other). -/
def subtract (v o : Vector3D) : Vector3D := ⟨v.x - o.x, v.y - o.y, v.z - o.z⟩

/-- Source dot(other). -/
def dot (v o : Vector3D) : ℚ := v.x * o.x + v.y * o.y + v.z * o.z

/-- Source cross(other) (src/main.js:540-545). -/
def cross (v o : Vector3D) : Vector3D :=
  ⟨v.y * o.z - v.z * o.y, v.z * o.x - v.x * o.z, v.x * o.y - v.y * o.x⟩

/-- Source scale(scalar). -/
def scale (v : Vector3D) (scalar : ℚ) : Vector3D :=
  ⟨v.x * scalar, v.y * scalar, v.z * scalar⟩

end Vector3D

/-- Embedding of class Matrix (src/main.js:85-238): row-major flat element
list.  The JavaScript constructor throws on non-positive dimensions or an
element list of the wrong length; instances built below always satisfy
elements.length = rows * cols. -/
structure Matrix where
  rows : ℕ
  cols : ℕ
  elements : List ℚ
deriving DecidableEq

namespace Matrix

/-- Source get(row, col) reads elements[row * cols + col] after a bounds
check that throws outside the matrix; every use below is in range, so the
read is modelled totally with default 0. -/
def getEntry (m : Matrix) (i j : ℕ) : ℚ := m.elements.getD (i * m.cols + j) 0

/-- The element list produced by the triple loop of source multiply
(src/main.js:180-190): row-major, entry (i,j) summing get(i,k)*get(k,j)
over k. -/
def productElements (a b : Matrix) : List ℚ :=
  (List.range a.rows).flatMap fun i =>
    (List.range b.cols).map fun j =>
      ((List.range a.cols).map fun k => a.getEntry i k * b.getEntry k j).sum

/-- Source multiply(other) (src/main.js:171-193): after the
instanceof-Matrix guard (always satisfied in this typed embedding) it
throws when this.cols differs from other.rows, and otherwise returns the
rows×other.cols product matrix. -/
def multiply (a b : Matrix) : Except String Matrix :=
  if a.cols ≠ b.rows then
    Except.error "Il numero di colonne della prima matrice deve essere uguale al numero di righe della seconda"
  else
    Except.ok ⟨a.rows, b.cols, productElements a b⟩

/-- Source static diag(elems) (src/main.js:215-224): square matrix with
elems on the diagonal and zeros elsewhere, written row-major. -/
def diag (elems : List ℚ) : Matrix :=
  let size := elems.length
  ⟨size, size,
    (List.range size).flatMap fun i =>
      (List.range size).map fun j => if i = j then elems.getD i 0 else 0⟩

/-- Source static identity(n) (src/main.js:231-237): diag of n ones. -/
def identityMatrix (n : ℕ) : Matrix := diag (List.replicate n 1)

end Matrix

/-- Embedding of class TransformationMatrix (src/main.js:244-474), the
4×4 specialization; only the flat 16-element list is stored (rows = cols
= 4 throughout). -/
structure TransformationMatrix where
  elements : List ℚ
deriving DecidableEq

namespace TransformationMatrix

/-- View as the generic 4×4 Matrix of the superclass. -/
def toMatrix (t : TransformationMatrix) : Matrix := ⟨4, 4, t.elements⟩

/-- Element read m[i] on the flat array, as used throughout the class. -/
def get (t : TransformationMatrix) (i : ℕ) : ℚ := t.elements.getD i 0

/-- Source static identity() (src/main.js:333-335). -/
def identityTM : TransformationMatrix := ⟨(Matrix.identityMatrix 4).elements⟩

/-- Source inverse() (src/main.js:259-267), transcribed verbatim: the
3×3 block is copied untransposed and the new translation column is the
negated dot products of the original columns with the translation. -/
def inverse (t : TransformationMatrix) : TransformationMatrix :=
  let m := t.get
  ⟨[m 0, m 1, m 2, -(m 0 * m 3 + m 4 * m 7 + m 8 * m 11),
    m 4, m 5, m 6, -(m 1 * m 3 + m 5 * m 7 + m 9 * m 11),
    m 8, m 9, m 10, -(m 2 * m 3 + m 6 * m 7 + m 10 * m 11),
    0, 0, 0, 1]⟩

/-- Source transform(vector) (src/main.js:273-282): full homogeneous
transform followed by scaling with 1/w.  In the source w = 0 produces
non-finite components; over ℚ the model yields the zero vector there (no
claim below transforms with w = 0). -/
def transform (t : TransformationMatrix) (v : Vector3D) : Vector3D :=
  let m := t.get
  let w := m 12 * v.x + m 13 * v.y + m 14 * v.z + m 15
  (Vector3D.mk (m 0 * v.x + m 1 * v.y + m 2 * v.z + m 3)
    (m 4 * v.x + m 5 * v.y + m 6 * v.z + m 7)
    (m 8 * v.x + m 9 * v.y + m 10 * v.z + m 11)).scale (1 / w)

/-- Source setTraslation(traslation) (src/main.js:299-305): writes the
three translation slots m[3], m[7], m[11] in place (the returned copy is
discarded by the caller in RenderObject.setPosition; the in-place write is
the effect that persists, modelled here as the resulting matrix). -/
def setTraslation (t : TransformationMatrix) (traslation : Vector3D) : TransformationMatrix :=
  ⟨((t.elements.set 3 traslation.x).set 7 traslation.y).set 11 traslation.z⟩

/-- Source multiply(other) (src/main.js:312-318): the superclass product
(which cannot throw here, both operands being 4×4) rewrapped as a
TransformationMatrix. -/
def multiply (a b : TransformationMatrix) : TransformationMatrix :=
  ⟨Matrix.productElements a.toMatrix b.toMatrix⟩

/-- Source static createTraslationMatrix(direction) (src/main.js:379-388). -/
def createTraslationMatrix (direction : Vector3D) : TransformationMatrix :=
  ⟨[1, 0, 0, direction.x,
    0, 1, 0, direction.y,
    0, 0, 1, direction.z,
    0, 0, 0, 1]⟩

/-- Source static createRotationAroundAxis(angle, axis)
(src/main.js:396-407): Rodrigues formula from Math.cos/Math.sin of the
angle; the axis is used as given (not normalized). -/
def createRotationAroundAxis (M : MathLib) (angle : ℚ) (axis : Vector3D) :
    TransformationMatrix :=
  let cos := M.cos angle
  let mcos := 1 - cos
  let sin := M.sin angle
  let ux := axis.x
  let uy := axis.y
  let uz := axis.z
  ⟨[cos + ux * ux * mcos, ux * uy * mcos - uz * sin, ux * uz * mcos + uy * sin, 0,
    uy * ux * mcos + uz * sin, cos + uy * uy * mcos, uy * uz * mcos - ux * sin, 0,
    uz * ux * mcos - uy * sin, uz * uy * mcos + ux * sin, cos + uz * uz * mcos, 0,
    0, 0, 0, 1]⟩

/-- Source static createRotationMatrix(x, y, z) (src/main.js:344-355)
with the default axes: rotationZ.multiply(rotationY).multiply(rotationX). -/
def createRotationMatrix (M : MathLib) (x y z : ℚ) : TransformationMatrix :=
  ((createRotationAroundAxis M z ⟨0, 0, 1⟩).multiply
    (createRotationAroundAxis M y ⟨0, 1, 0⟩)).multiply
    (createRotationAroundAxis M x ⟨1, 0, 0⟩)

/-- A 4×4 matrix composed only of rotation and translation: 16 elements,
orthonormal rows in the 3×3 block with determinant 1 (a proper rotation),
and affine last row [0,0,0,1]. -/
def isRigid (t : TransformationMatrix) : Prop :=
  t.elements.length = 16 ∧
  t.get 0 * t.get 0 + t.get 1 * t.get 1 + t.get 2 * t.get 2 = 1 ∧
  t.get 4 * t.get 4 + t.get 5 * t.get 5 + t.get 6 * t.get 6 = 1 ∧
  t.get 8 * t.get 8 + t.get 9 * t.get 9 + t.get 10 * t.get 10 = 1 ∧
  t.get 0 * t.get 4 + t.get 1 * t.get 5 + t.get 2 * t.get 6 = 0 ∧
  t.get 0 * t.get 8 + t.get 1 * t.get 9 + t.get 2 * t.get 10 = 0 ∧
  t.get 4 * t.get 8 + t.get 5 * t.get 9 + t.get 6 * t.get 10 = 0 ∧
  t.get 0 * (t.get 5 * t.get 10 - t.get 6 * t.get 9)
    - t.get 1 * (t.get 4 * t.get 10 - t.get 6 * t.get 8)
    + t.get 2 * (t.get 4 * t.get 9 - t.get 5 * t.get 8) = 1 ∧
  t.get 12 = 0 ∧ t.get 13 = 0 ∧ t.get 14 = 0 ∧ t.get 15 = 1

instance (t : TransformationMatrix) : Decidable t.isRigid := by
  unfold isRigid; infer_instance

end TransformationMatrix

/-- A concrete rigid transformation: rotation by 90 degrees around the z
axis (cos = 0, sin = 1 exactly) composed with translation (1,2,3). -/
def rigidSample : TransformationMatrix :=
  ⟨[0, -1, 0, 1,
    1, 0, 0, 2,
    0, 0, 1, 3,
    0, 0, 0, 1]⟩

/-- Helper: indexing into a flatMap whose blocks all have length c picks
position j of block i. -/
theorem flatMap_getD_block {β γ : Type} (g : β → List γ) (c : ℕ) (d : γ) (b₀ : β) :
    ∀ (L : List β) (i j : ℕ), (∀ x ∈ L, (g x).length = c) → i < L.length → j < c →
      (L.flatMap g).getD (i * c + j) d = (g (L.getD i b₀)).getD j d := by
  intro L
  induction L with
  | nil => intro i j _ hi _; simp at hi
  | cons a L ih =>
    intro i j hc hi hj
    have hlen : (g a).length = c := hc a (by simp)
    cases i with
    | zero =>
      simp only [List.flatMap_cons, Nat.zero_mul, Nat.zero_add]
      rw [List.getD_append _ _ _ _ (by omega)]
      rfl
    | succ i =>
      simp only [List.flatMap_cons]
      rw [List.getD_append_right _ _ _ _ (by rw [hlen]; nlinarith)]
      have harith : (i + 1) * c + j - (g a).length = i * c + j := by
        rw [hlen]; ring_nf; omega
      rw [harith]
      exact ih i j (fun x hx => hc x (by simp [hx])) (by simpa using hi) hj

/-- Helper: a list-map sum over List.range agrees with the Finset sum. -/
theorem sum_map_range_eq (f : ℕ → ℚ) (n : ℕ) :
    ((List.range n).map f).sum = ∑ k in Finset.range n, f k := by
  induction n with
  | zero => simp
  | succ n ih => simp [List.range_succ, Finset.sum_range_succ, ih]

/-- Helper: entry (i,j) of the product element list is the loop sum. -/
theorem productElements_getD (a b : Matrix) (i j : ℕ) (hi : i < a.rows)
    (hj : j < b.cols) :
    (Matrix.productElements a b).getD (i * b.cols + j) 0
      = ((List.range a.cols).map fun k => a.getEntry i k * b.getEntry k j).sum := by
  unfold Matrix.productElements
  rw [flatMap_getD_block _ b.cols 0 0 _ i j (fun x _ => by simp) (by simpa) hj]
  have hi2 : (List.range a.rows).getD i 0 = i := by
    rw [List.getD_eq_getElem _ _ (by simpa)]; simp
  rw [hi2, List.getD_eq_getElem _ _ (by simpa)]
  simp

/-- C8: Matrix.multiply(A,B) throws exactly when the inner dimensions
disagree (the only other throwing branch, a non-Matrix argument, cannot
arise in this typed embedding); on success the result is A.rows × B.cols
with entry (i,j) the sum over k of A(i,k)·B(k,j).  Operands are read only
through getEntry and returned untouched (the embedding is pure, matching
the source, which writes only into the freshly allocated result). -/
theorem matrix_multiply_contract (a b : Matrix) :
    ((a.multiply b).isOk ↔ a.cols = b.rows) ∧
    (∀ c, a.multiply b = Except.ok c →
      c.rows = a.rows ∧ c.cols = b.cols ∧
      ∀ i j, i < a.rows → j < b.cols →
        c.getEntry i j = ∑ k in Finset.range a.cols, a.getEntry i k * b.getEntry k j) := by
  constructor
  · unfold Matrix.multiply
    split
    · simp_all [Except.isOk, Except.toBool]
    · simp_all [Except.isOk, Except.toBool]
  · intro c hc
    unfold Matrix.multiply at hc
    split at hc
    · exact absurd hc (by simp)
    · rw [Except.ok.injEq] at hc
      subst hc
      refine ⟨rfl, rfl, fun i j hi hj => ?_⟩
      show (Matrix.productElements a b).getD (i * b.cols + j) 0 = _
      rw [productElements_getD a b i j hi hj, sum_map_range_eq]

/-- Witness for C8 at a concrete pair of 2×2 matrices. -/
theorem matrix_multiply_contract_witness :
    (((Matrix.mk 2 2 [1, 2, 3, 4]).multiply (Matrix.mk 2 2 [5, 6, 7, 8])).isOk
        ↔ (2 : ℕ) = 2) ∧
    (Matrix.mk 2 2 [19, 22, 43, 50]).getEntry 0 1
      = ∑ k in Finset.range 2,
          (Matrix.mk 2 2 [1, 2, 3, 4]).getEntry 0 k
            * (Matrix.mk 2 2 [5, 6, 7, 8]).getEntry k 1 :=
  ⟨(matrix_multiply_contract (Matrix.mk 2 2 [1, 2, 3, 4]) (Matrix.mk 2 2 [5, 6, 7, 8])).1,
   (((matrix_multiply_contract (Matrix.mk 2 2 [1, 2, 3, 4])
        (Matrix.mk 2 2 [5, 6, 7, 8])).2 (Matrix.mk 2 2 [19, 22, 43, 50])
        (by with_unfolding_all decide)).2.2 0 1 (by decide) (by decide))⟩

/-- C9: normalize() of the zero vector is the zero vector, with no
exception: the source returns new Vector3D() when the magnitude is 0, and
even under a Math.sqrt interpretation with sqrt(0) ≠ 0 the other branch
divides zeros, so the result is the zero vector for every interpretation. -/
theorem normalize_zero_vector (M : MathLib) :
    Vector3D.normalize M ⟨0, 0, 0⟩ = ⟨0, 0, 0⟩ := by
  simp only [Vector3D.normalize, Vector3D.magnitude]
  norm_num

/-- C1 (code bug): a rigid transformation matrix, rotation by 90° about z
(entries exact) with translation (1,2,3), on which T.multiply(T.inverse())
is the 180° z-rotation rather than the identity: inverse() copies the
rotation block untransposed (src/main.js:262-264), so the product carries
R·R.  This contradicts the inverse() documentation and the spec, which
promise the rigid inverse via the transpose. -/
theorem inverse_multiply_not_identity :
    rigidSample.isRigid ∧
    (rigidSample.multiply rigidSample.inverse).elements
        = [-1, 0, 0, 0, 0, -1, 0, 0, 0, 0, 1, 0, 0, 0, 0, 1] ∧
    rigidSample.multiply rigidSample.inverse ≠ TransformationMatrix.identityTM := by
  with_unfolding_all decide

/-- Digits to a natural number, most significant first. -/
def digitsToNat (cs : List Char) : ℕ :=
  cs.foldl (fun n c => 10 * n + (c.toNat - 48)) 0

/-- Model of JavaScript parseFloat on the whitespace-trimmed tokens the
parser feeds it: optional sign, then decimal digits with an optional
fractional part; none models NaN (no digits at all).  Exponent suffixes
and trailing garbage, which parseFloat would also accept by taking the
longest numeric prefix, do not occur in any input considered here. -/
def parseFloatQ (s : String) : Option ℚ :=
  let cs := s.toList
  let signed : ℚ × List Char :=
    match cs with
    | c :: r => if c = Char.ofNat 45 then (-1, r) else if c = Char.ofNat 43 then (1, r) else (1, cs)
    | [] => (1, cs)
  let intPart := signed.2.takeWhile Char.isDigit
  let rest := signed.2.dropWhile Char.isDigit
  let fracPart :=
    match rest with
    | c :: r => if c = Char.ofNat 46 then r.takeWhile Char.isDigit else []
    | [] => []
  if intPart.isEmpty && fracPart.isEmpty then none
  else
    some (signed.1 * ((digitsToNat intPart : ℚ)
      + (digitsToNat fracPart : ℚ) / 10 ^ fracPart.length))

/-- The parser stores parseFloat results directly; NaN (unparsable token,
e.g. a missing coordinate) is modelled as 0 — no claim below feeds the
parser an unparsable number. -/
def jsParseFloat (s : String) : ℚ := (parseFloatQ s).getD 0

/-- Model of JavaScript parseInt on the tokens fed to it: optional sign
then decimal digits; none models NaN. -/
def parseIntZ (s : String) : Option ℤ :=
  let cs := s.toList
  let signed : ℤ × List Char :=
    match cs with
    | c :: r => if c = Char.ofNat 45 then (-1, r) else if c = Char.ofNat 43 then (1, r) else (1, cs)
    | [] => (1, cs)
  let digits := signed.2.takeWhile Char.isDigit
  if digits.isEmpty then none else some (signed.1 * digitsToNat digits)

/-- NaN-as-0 convention, as for jsParseFloat. -/
def jsParseInt (s : String) : ℤ := (parseIntZ s).getD 0

/-- Embedding of class MaterialBuffer (src/objects/materialbuffer.js):
defaults as in the source constructor; texture slots use −1 for
"none". -/
structure MaterialBuffer where
  name : String
  Kd : List ℚ := [1, 1, 1]
  Ks : List ℚ := [1, 1, 1]
  Ka : List ℚ := [1, 1, 1]
  Ns : ℚ := 32
  illum : ℚ := 2
  alpha : ℚ := 1
  Ni : ℚ := 1
  transmissionFilter : List ℚ := [1, 1, 1]
  Ke : List ℚ := [0, 0, 0]
  ambientTexture : ℤ := -1
  diffuseTexture : ℤ := -1
  normalTexture : ℤ := -1
  specularTexture : ℤ := -1
  shininessTexture : ℤ := -1
  emissionTexture : ℤ := -1
deriving DecidableEq

/-- Source new MaterialBuffer(name) with all defaults. -/
def MaterialBuffer.make (name : String) : MaterialBuffer := { name := name }

/-- JavaScript object-as-map, modelled as an insertion-ordered
association list.  Assigning to an existing key keeps its original
position (Object.keys order is first-insertion order). -/
def alSet {β : Type} (l : List (String × β)) (k : String) (v : β) : List (String × β) :=
  if l.any (fun p => p.1 = k) then l.map (fun p => if p.1 = k then (k, v) else p)
  else l ++ [(k, v)]

/-- Property read obj[k]: none models undefined. -/
def alGet {β : Type} (l : List (String × β)) (k : String) : Option β :=
  (l.find? (fun p => p.1 = k)).map Prod.snd

/-- Object.keys: first-insertion order. -/
def alKeys {β : Type} (l : List (String × β)) : List String := l.map Prod.fst

/-- In-place mutation of the object stored at an existing key. -/
def alUpdate {β : Type} (l : List (String × β)) (k : String) (f : β → β) :
    List (String × β) :=
  l.map (fun p => if p.1 = k then (p.1, f p.2) else p)

/-- Array.prototype.indexOf with a fromIndex: the least position ≥ start
holding x, else −1. -/
def jsIndexOfFrom (l : List String) (x : String) (start : ℕ) : ℤ :=
  match (l.drop start).findIdx? (fun s => s = x) with
  | some i => ((i + start : ℕ) : ℤ)
  | none => -1

/-- Array.prototype.indexOf. -/
def jsIndexOf (l : List String) (x : String) : ℤ := jsIndexOfFrom l x 0

/-- The state threaded through #parseMTL (part_005:45-131): the materials
table being built, the name of the material currentMaterial points at
(always the entry most recently created by newmtl), and the console.error
log. -/
structure MTLState where
  materials : List (String × MaterialBuffer)
  currentMaterial : Option String
  log : List String
deriving DecidableEq

/-- A property write through currentMaterial; when no newmtl has been
seen, currentMaterial is null and the source throws a TypeError. -/
def mtlModify (st : MTLState) (f : MaterialBuffer → MaterialBuffer) :
    Except String MTLState :=
  match st.currentMaterial with
  | none => Except.error "TypeError: Cannot set properties of null"
  | some k => Except.ok { st with materials := alUpdate st.materials k f }

/-- Texture filename resolution for the map_* keywords
(part_005:74-104): strip the path with both separators, then look the
basename up in the caller-supplied ordered texture-name list; −1 when
absent. -/
def resolveTexture (textures : List String) (token : String) : ℤ :=
  let textureName := (((token.splitOn "/").getLastD "").splitOn "\\").getLastD ""
  jsIndexOf textures textureName

/-- One iteration of the #parseMTL line loop (part_005:49-130): trim,
split on single spaces, dispatch on the keyword. -/
def parseMTLLine (textures : List String) (st : MTLState) (rawLine : String) :
    Except String MTLState :=
  let line := rawLine.trim
  let parts := line.splitOn " "
  match parts.getD 0 "" with
  | "newmtl" =>
      -- A missing name token is undefined; used as an object key it
      -- becomes the string "undefined", and the same value is the name.
      let nm := parts.getD 1 "undefined"
      Except.ok { st with
        materials := alSet st.materials nm (MaterialBuffer.make nm),
        currentMaterial := some nm }
  | "illum" => mtlModify st fun m => { m with illum := jsParseFloat (parts.getD 1 "") }
  | "Ka" => mtlModify st fun m =>
      { m with Ka := [jsParseFloat (parts.getD 1 ""), jsParseFloat (parts.getD 2 ""),
                      jsParseFloat (parts.getD 3 "")] }
  | "Kd" => mtlModify st fun m =>
      { m with Kd := [jsParseFloat (parts.getD 1 ""), jsParseFloat (parts.getD 2 ""),
                      jsParseFloat (parts.getD 3 "")] }
  | "Ks" => mtlModify st fun m =>
      { m with Ks := [jsParseFloat (parts.getD 1 ""), jsParseFloat (parts.getD 2 ""),
                      jsParseFloat (parts.getD 3 "")] }
  | "Ke" => mtlModify st fun m =>
      { m with Ke := [jsParseFloat (parts.getD 1 ""), jsParseFloat (parts.getD 2 ""),
                      jsParseFloat (parts.getD 3 "")] }
  | "map_Ke" =>
      match parts with
      | _ :: tok :: _ =>
          mtlModify st fun m => { m with emissionTexture := resolveTexture textures tok }
      | _ => Except.error "TypeError: Cannot read properties of undefined"
  | "map_Kd" =>
      match parts with
      | _ :: tok :: _ =>
          mtlModify st fun m => { m with diffuseTexture := resolveTexture textures tok }
      | _ => Except.error "TypeError: Cannot read properties of undefined"
  | "map_Ns" =>
      match parts with
      | _ :: tok :: _ =>
          mtlModify st fun m => { m with shininessTexture := resolveTexture textures tok }
      | _ => Except.error "TypeError: Cannot read properties of undefined"
  | "bump" | "map_Bump" =>
      match parts with
      | _ :: tok :: _ =>
          mtlModify st fun m => { m with normalTexture := resolveTexture textures tok }
      | _ => Except.error "TypeError: Cannot read properties of undefined"
  | "map_Ks" =>
      match parts with
      | _ :: tok :: _ =>
          mtlModify st fun m => { m with specularTexture := resolveTexture textures tok }
      | _ => Except.error "TypeError: Cannot read properties of undefined"
  | "map_Ka" =>
      match parts with
      | _ :: tok :: _ =>
          mtlModify st fun m => { m with ambientTexture := resolveTexture textures tok }
      | _ => Except.error "TypeError: Cannot read properties of undefined"
  | "Tr" => mtlModify st fun m => { m with alpha := 1 - jsParseFloat (parts.getD 1 "") }
  | "Tf" => mtlModify st fun m =>
      { m with transmissionFilter :=
          [jsParseFloat (parts.getD 1 ""), jsParseFloat (parts.getD 2 ""),
           jsParseFloat (parts.getD 3 "")] }
  | "Ns" => mtlModify st fun m => { m with Ns := jsParseFloat (parts.getD 1 "") }
  | "d" => mtlModify st fun m => { m with alpha := jsParseFloat (parts.getD 1 "") }
  | "Ni" => mtlModify st fun m => { m with Ni := jsParseFloat (parts.getD 1 "") }
  | "refl" => Except.ok st
  | "#" => Except.ok st
  | "" => Except.ok st
  | _ => Except.ok { st with log := st.log ++ ["Unexpected command! " ++ line] }

/-- Source #parseMTL (part_005:45-131): fold the line parser over the
newline-split text. -/
def parseMTL (textures : List String) (st : MTLState) (text : String) :
    Except String MTLState :=
  (text.splitOn "\n").foldlM (parseMTLLine textures) st

/-- One entry of a face record (part_005:179-184): 0-based indices with
−1 for an absent optional index, plus the material index current at parse
time. -/
structure FaceVertex where
  vertexIndex : ℤ
  texCoordIndex : ℤ
  normalIndex : ℤ
  material : ℤ
deriving DecidableEq

/-- One named object/group (part_005:32-38).  The source also initializes
a per-object materials array that nothing ever fills or reads; it is
omitted. -/
structure ObjRecord where
  faces : List (List FaceVertex) := []
  lineRecords : List (List ℤ) := []
deriving DecidableEq

/-- Embedding of class ObjectParser (part_005): the instance fields
after construction, plus the currentMaterialIdx local of #parseOBJ
(carried in the fold state while parsing) and the console.error log. -/
structure ObjectParser where
  objects : List (String × ObjRecord) := []
  vertices : List ℚ := []
  normals : List ℚ := []
  texCoords : List ℚ := []
  materials : List (String × MaterialBuffer) := []
  textures : List String := []
  currentObjectName : Option String := none
  currentMaterialIdx : ℤ := -1
  log : List String := []
deriving DecidableEq

/-- The push into this.objects[this.currentObjectName] shared by the f
and l cases: the null name is coerced by JavaScript to the string key
"null"; when the key is absent the lookup is undefined and the member
access throws. -/
def ObjectParser.pushToCurrent (st : ObjectParser) (f : ObjRecord → ObjRecord) :
    Except String ObjectParser :=
  let key := st.currentObjectName.getD "null"
  match alGet st.objects key with
  | none => Except.error "TypeError: Cannot read properties of undefined"
  | some r => Except.ok { st with objects := alSet st.objects key (f r) }

/-- Face construction in the f case (part_005:176-185): each token is
split on /, indices are 1-based and decremented; a missing or empty
optional index token is falsy and yields −1; the material is the current
material index. -/
def buildFace (currentMaterialIdx : ℤ) (tokens : List String) : List FaceVertex :=
  tokens.map fun token =>
    let vertexData := token.splitOn "/"
    { vertexIndex := jsParseInt (vertexData.getD 0 "") - 1
      texCoordIndex :=
        if vertexData.getD 1 "" = "" then -1 else jsParseInt (vertexData.getD 1 "") - 1
      normalIndex :=
        if vertexData.getD 2 "" = "" then -1 else jsParseInt (vertexData.getD 2 "") - 1
      material := currentMaterialIdx }

/-- One iteration of the #parseOBJ line loop (part_005:142-209). -/
def parseOBJLine (st : ObjectParser) (rawLine : String) : Except String ObjectParser :=
  let line := rawLine.trim
  let parts := line.splitOn " "
  match parts.getD 0 "" with
  | "o" | "g" =>
      -- A missing name token (undefined) falls to "default" through ??.
      let nm := parts.getD 1 "default"
      let objects :=
        if (alGet st.objects nm).isNone then alSet st.objects nm {} else st.objects
      Except.ok { st with objects := objects, currentObjectName := some nm }
  | "v" =>
      Except.ok { st with vertices := st.vertices ++
        [jsParseFloat (parts.getD 1 ""), jsParseFloat (parts.getD 2 ""),
         jsParseFloat (parts.getD 3 "")] }
  | "vn" =>
      Except.ok { st with normals := st.normals ++
        [jsParseFloat (parts.getD 1 ""), jsParseFloat (parts.getD 2 ""),
         jsParseFloat (parts.getD 3 "")] }
  | "vt" =>
      Except.ok { st with texCoords := st.texCoords ++
        [jsParseFloat (parts.getD 1 ""), jsParseFloat (parts.getD 2 "")] }
  | "f" =>
      st.pushToCurrent fun r =>
        { r with faces := r.faces ++ [buildFace st.currentMaterialIdx (parts.drop 1)] }
  | "l" =>
      st.pushToCurrent fun r =>
        { r with lineRecords := r.lineRecords ++ [(parts.drop 1).map fun t => jsParseInt t - 1] }
  | "usemtl" =>
      match parts with
      | _ :: nm :: _ =>
          -- indexOf(name, 1): the search starts after the synthetic
          -- default entry; a miss stores −1 and logs the report.
          let name := nm.replace "\"" ""
          let idx := jsIndexOfFrom (alKeys st.materials) name 1
          let log2 :=
            if idx = -1 then
              st.log ++ ["Couldnt find material " ++ name ++ " in the .mtl file"]
            else st.log
          Except.ok { st with currentMaterialIdx := idx, log := log2 }
      | _ => Except.error "TypeError: Cannot read properties of undefined"
  | "#" | "mtllib" | "s" | "" => Except.ok st
  | _ => Except.ok { st with log := st.log ++ ["Unexpected command! " ++ line] }

/-- Source constructor (part_005:12-25): the materials table starts with
the synthetic default entry, #parseMTL runs first, then #parseOBJ folds
over the geometry lines with currentObjectName null and
currentMaterialIdx −1. -/
def ObjectParser.make (objString mtlString : String) (textures : List String) :
    Except String ObjectParser := do
  let stM ← parseMTL textures
    (MTLState.mk [("default", MaterialBuffer.make "default")] none []) mtlString
  (objString.splitOn "\n").foldlM parseOBJLine
    { objects := [], vertices := [], normals := [], texCoords := []
      materials := stM.materials, textures := textures
      currentObjectName := none, currentMaterialIdx := -1, log := stM.log }

/-- Source getObjectNames() (part_005:395-397). -/
def ObjectParser.getObjectNames (p : ObjectParser) : List String := alKeys p.objects

/-- The faces traversed by every getter: for each name of
getObjectNames() in order, the faces of that object in order.  Keys of
the association list are unique, so this is the concatenation. -/
def ObjectParser.allFaces (p : ObjectParser) : List (List FaceVertex) :=
  p.objects.flatMap fun o => o.2.faces

/-- Source getMaterials() (part_005:322-339), materialIndices component:
one entry per flattened face vertex, pushing vertex.material ?? 0.  The
?? fires only on null/undefined; material always holds the numeric
currentMaterialIdx, so −1 is pushed verbatim. -/
def ObjectParser.getMaterialsIndices (p : ObjectParser) : List ℤ :=
  p.allFaces.flatMap fun face => face.map fun v => v.material

/-- Triangle indices contributed by one face (part_005:355-363): a
triangle gets its three corners; a larger polygon is fanned from its
first vertex; smaller faces contribute nothing. -/
def fanIndices (index : ℕ) (n : ℕ) : List ℕ :=
  if n = 3 then [index, index + 1, index + 2]
  else if n > 3 then
    (List.range (n - 2)).flatMap fun j => [index, index + (j + 1), index + (j + 1) + 1]
  else []

/-- The running loop of getIndices (part_005:346-369): index advances by
the face length whether or not the face produced triangles. -/
def indicesLoop : ℕ → List (List FaceVertex) → List ℕ
  | _, [] => []
  | index, face :: rest => fanIndices index face.length ++ indicesLoop (index + face.length) rest

/-- Source getIndices() buffer component: a single index counter runs
across all objects in getObjectNames() order. -/
def ObjectParser.getIndicesBuffer (p : ObjectParser) : List ℕ :=
  indicesLoop 0 p.allFaces

/-- Array.prototype.slice with JavaScript index clamping (negative
positions count from the end). -/
def jsSlice (l : List ℚ) (start stop : ℤ) : List ℚ :=
  let n : ℤ := l.length
  let s := if start < 0 then max (n + start) 0 else min start n
  let e := if stop < 0 then max (n + stop) 0 else min stop n
  (l.take e.toNat).drop s.toNat

/-- Direct indexed pool read this.normals[i]: undefined (negative or
out-of-range position) is NaN once pushed into the Float32Array, modelled
as 0. -/
def jsReadAt (l : List ℚ) (i : ℤ) : ℚ :=
  if i < 0 then 0 else l.getD i.toNat 0

/-- The vertices.slice(vi*3, vi*3+3) read used by getNormals
(part_005:277-279). -/
def ObjectParser.positionSlice (p : ObjectParser) (vi : ℤ) : List ℚ :=
  jsSlice p.vertices (vi * 3) (vi * 3 + 3)

/-- A 3-element position array viewed as a vector (entries beyond the
array are undefined/NaN in the source, 0 here). -/
def vecOfList (l : List ℚ) : Vector3D := ⟨l.getD 0 0, l.getD 1 0, l.getD 2 0⟩

/-- The position of a face vertex, for stating the flat-normal claim. -/
def ObjectParser.facePosition (p : ObjectParser) (fv : FaceVertex) : Vector3D :=
  vecOfList (p.positionSlice fv.vertexIndex)

/-- Source calculateNormal(v1, v2, v3) (part_005:299-312): cross product
of the two edge arrays, divided by its Math.sqrt length (no zero check:
a degenerate face divides zero by zero). The local array v of the source
is written w here. -/
def ObjectParser.calculateNormal (M : MathLib) (v1 v2 v3 : List ℚ) : List ℚ :=
  let u0 := v2.getD 0 0 - v1.getD 0 0
  let u1 := v2.getD 1 0 - v1.getD 1 0
  let u2 := v2.getD 2 0 - v1.getD 2 0
  let w0 := v3.getD 0 0 - v1.getD 0 0
  let w1 := v3.getD 1 0 - v1.getD 1 0
  let w2 := v3.getD 2 0 - v1.getD 2 0
  let n0 := u1 * w2 - u2 * w1
  let n1 := u2 * w0 - u0 * w2
  let n2 := u0 * w1 - u1 * w0
  let length := M.sqrt (n0 * n0 + n1 * n1 + n2 * n2)
  [n0 / length, n1 / length, n2 / length]

/-- The getNormals contribution of one face (part_005:270-287): explicit
normals are copied per vertex when the first vertex carries a normal
index; otherwise one flat normal from the first three vertex positions is
pushed for every vertex of the face.  An empty face throws on face[0],
and a face of fewer than three vertices throws on face[1]/face[2] in the
flat branch. -/
def ObjectParser.faceNormals (M : MathLib) (p : ObjectParser) (face : List FaceVertex) :
    Except String (List ℚ) :=
  match face with
  | [] => Except.error "TypeError: Cannot read properties of undefined"
  | fv0 :: _ =>
    if fv0.normalIndex ≠ -1 then
      Except.ok (face.flatMap fun v =>
        [jsReadAt p.normals (v.normalIndex * 3), jsReadAt p.normals (v.normalIndex * 3 + 1),
         jsReadAt p.normals (v.normalIndex * 3 + 2)])
    else
      match face with
      | v0 :: v1 :: v2 :: _ =>
          let normal := calculateNormal M (p.positionSlice v0.vertexIndex)
            (p.positionSlice v1.vertexIndex) (p.positionSlice v2.vertexIndex)
          Except.ok ((List.range face.length).flatMap fun _ => normal)
      | _ => Except.error "TypeError: Cannot read properties of undefined"

/-- Source getNormals() (part_005:267-290): concatenation of the
per-face contributions over all objects in order. -/
def ObjectParser.getNormals (M : MathLib) (p : ObjectParser) : Except String (List ℚ) :=
  p.allFaces.foldlM (fun acc face => (p.faceNormals M face).map (fun l => acc ++ l)) []

/-- The fan triples named by the spec: for a face of n vertices whose
first flattened vertex sits at offset k, the triples (k, k+i, k+i+1) for
i = 1..n−2 (empty for n < 3 by ℕ truncation). -/
def fanTriples (k n : ℕ) : List ℕ :=
  (List.range (n - 2)).flatMap fun j => [k, k + (j + 1), k + (j + 1) + 1]

/-- Each face paired with the offset of its first flattened vertex: the
total vertex count of the preceding faces. -/
def facesWithOffsets : ℕ → List (List FaceVertex) → List (ℕ × ℕ)
  | _, [] => []
  | k, face :: rest => (k, face.length) :: facesWithOffsets (k + face.length) rest

/-- Both getIndices branches produce exactly the spec fan triples. -/
theorem fanIndices_eq_fanTriples (k n : ℕ) : fanIndices k n = fanTriples k n := by
  unfold fanIndices fanTriples
  split
  · subst n
    simp [List.range_succ]
  · split
    · rfl
    · have h2 : n - 2 = 0 := by omega
      simp [h2]

/-- The running index loop matches the offset presentation. -/
theorem indicesLoop_eq_offsets (faces : List (List FaceVertex)) :
    ∀ k, indicesLoop k faces
      = (facesWithOffsets k faces).flatMap fun kn => fanTriples kn.1 kn.2 := by
  induction faces with
  | nil => intro k; simp [indicesLoop, facesWithOffsets]
  | cons face rest ih =>
      intro k
      simp [indicesLoop, facesWithOffsets, fanIndices_eq_fanTriples, ih]

/-- C4: the triangle index buffer is exactly the concatenation, in face
order, of the n−2 fan triples (k, k+i, k+i+1), i = 1..n−2, for each face
of n vertices whose first flattened vertex sits at offset k (the sum of
the lengths of the preceding faces); each face contributes 3·(n−2)
indices, and in particular a quad face parses to the triples
(0,1,2),(0,2,3). -/
theorem triangle_fan_indices (p : ObjectParser) :
    p.getIndicesBuffer
        = ((facesWithOffsets 0 p.allFaces).flatMap fun kn => fanTriples kn.1 kn.2) ∧
    (∀ k n, (fanTriples k n).length = 3 * (n - 2)) ∧
    (ObjectParser.make "o q\nv 0 0 0\nv 1 0 0\nv 1 1 0\nv 0 1 0\nf 1 2 3 4" "" []).map
        ObjectParser.getIndicesBuffer = Except.ok [0, 1, 2, 0, 2, 3] := by
  refine ⟨indicesLoop_eq_offsets p.allFaces 0, fun k n => ?_, ?_⟩
  · unfold fanTriples
    generalize n - 2 = m
    induction m with
    | zero => simp
    | succ i ih =>
        simp only [List.range_succ, List.flatMap_append, List.length_append, ih]
        simp
        omega
  · with_unfolding_all decide

/-- C3 (code bug): the end-to-end triangle scenario with no o/g line
throws.  The constructor leaves currentObjectName null, the f case looks
up this.objects[null] (key "null"), finds undefined and throws a
TypeError instead of creating an implicit "default" part. -/
theorem parse_triangle_without_object_throws :
    ObjectParser.make "v 0 0 0\nv 1 0 0\nv 0 1 0\nf 1 2 3" "" []
      = Except.error "TypeError: Cannot read properties of undefined" := by
  with_unfolding_all decide

/-- C2 (counterexample): an unresolved usemtl is reported and parsing
continues, but the per-vertex material buffer holds −1 for the following
face, not 0: the buffer for the three vertices is [−1,−1,−1], which does
not contain 0. -/
theorem unresolved_usemtl_not_zero :
    (ObjectParser.make "o cube\nv 0 0 0\nv 1 0 0\nv 0 1 0\nusemtl ghost\nf 1 2 3" "" []).map
        (fun p => (p.getMaterialsIndices, p.log))
      = Except.ok ([-1, -1, -1], ["Couldnt find material ghost in the .mtl file"]) ∧
    (0 : ℤ) ∉ [(-1 : ℤ), -1, -1] := by
  with_unfolding_all decide

/-- The materials table state as the ObjectParser constructor initializes
it before #parseMTL runs: the synthetic default entry first, no current
material, empty log. -/
def initialMTLState : MTLState :=
  ⟨[("default", MaterialBuffer.make "default")], none, []⟩

/-- Reading back an updated key: alUpdate rewrites exactly the value
stored at that key. -/
theorem alGet_alUpdate {β : Type} (l : List (String × β)) (k : String) (f : β → β) :
    alGet (alUpdate l k f) k = (alGet l k).map f := by
  induction l with
  | nil => rfl
  | cons p r ih =>
      by_cases h : p.1 = k
      · unfold alUpdate alGet
        simp only [List.map_cons, if_pos h]
        rw [List.find?_cons_of_pos _ (by simp [h]), List.find?_cons_of_pos _ (by simp [h])]
        simp
      · unfold alUpdate alGet at ih ⊢
        simp only [List.map_cons, if_neg h]
        rw [List.find?_cons_of_neg _ (by simp [h]), List.find?_cons_of_neg _ (by simp [h])]
        exact ih

/-- C6: a Tr t line stores alpha = 1 − t on the material currentMaterial
points at, a d t line stores alpha = t, all other fields untouched; since
lines are processed in order, whichever appears last determines the final
alpha.  Concretely, Tr 0.3 ends at alpha 0.7, a material with only d 0.9
ends at 0.9, d-then-Tr ends at the Tr value and Tr-then-d at the d
value. -/
theorem mtl_tr_d_alpha (txs : List String) (st : MTLState) (nm : String)
    (m : MaterialBuffer) (hcur : st.currentMaterial = some nm)
    (hm : alGet st.materials nm = some m) :
    (∀ line t, line.trim.splitOn " " = ["Tr", t] →
      (parseMTLLine txs st line).map (fun s2 => alGet s2.materials nm)
        = Except.ok (some { m with alpha := 1 - jsParseFloat t })) ∧
    (∀ line t, line.trim.splitOn " " = ["d", t] →
      (parseMTLLine txs st line).map (fun s2 => alGet s2.materials nm)
        = Except.ok (some { m with alpha := jsParseFloat t })) ∧
    (parseMTL [] initialMTLState "newmtl X\nKd 1 0 0\nTr 0.3").map
        (fun s => (alGet s.materials "X").map (fun mm => mm.alpha))
      = Except.ok (some (7 / 10)) ∧
    (parseMTL [] initialMTLState "newmtl Y\nd 0.9").map
        (fun s => (alGet s.materials "Y").map (fun mm => mm.alpha))
      = Except.ok (some (9 / 10)) ∧
    (parseMTL [] initialMTLState "newmtl Z\nd 0.2\nTr 0.3").map
        (fun s => (alGet s.materials "Z").map (fun mm => mm.alpha))
      = Except.ok (some (7 / 10)) ∧
    (parseMTL [] initialMTLState "newmtl W\nTr 0.3\nd 0.2").map
        (fun s => (alGet s.materials "W").map (fun mm => mm.alpha))
      = Except.ok (some (1 / 5)) := by
  refine ⟨?_, ?_, ?_, ?_, ?_, ?_⟩
  · intro line t hline
    simp [parseMTLLine, hline, mtlModify, hcur, Except.map, alGet_alUpdate, hm]
  · intro line t hline
    simp [parseMTLLine, hline, mtlModify, hcur, Except.map, alGet_alUpdate, hm]
  · with_unfolding_all decide
  · with_unfolding_all decide
  · with_unfolding_all decide
  · with_unfolding_all decide

/-- Witness for C6: a state whose current material is X with defaults;
Tr 0.5 rewrites its alpha to 1 − 0.5, d 0.25 to 0.25. -/
theorem mtl_tr_d_alpha_witness :
    (parseMTLLine []
        (MTLState.mk [("default", MaterialBuffer.make "default"),
          ("X", MaterialBuffer.make "X")] (some "X") []) "Tr 0.5").map
      (fun s2 => alGet s2.materials "X")
      = Except.ok (some { MaterialBuffer.make "X" with alpha := 1 - jsParseFloat "0.5" }) ∧
    (parseMTLLine []
        (MTLState.mk [("default", MaterialBuffer.make "default"),
          ("X", MaterialBuffer.make "X")] (some "X") []) "d 0.25").map
      (fun s2 => alGet s2.materials "X")
      = Except.ok (some { MaterialBuffer.make "X" with alpha := jsParseFloat "0.25" }) :=
  ⟨(mtl_tr_d_alpha [] (MTLState.mk [("default", MaterialBuffer.make "default"),
      ("X", MaterialBuffer.make "X")] (some "X") []) "X" (MaterialBuffer.make "X")
      rfl (by with_unfolding_all decide)).1 "Tr 0.5" "0.5" (by with_unfolding_all decide),
   (mtl_tr_d_alpha [] (MTLState.mk [("default", MaterialBuffer.make "default"),
      ("X", MaterialBuffer.make "X")] (some "X") []) "X" (MaterialBuffer.make "X")
      rfl (by with_unfolding_all decide)).2.1 "d 0.25" "0.25" (by with_unfolding_all decide)⟩

/-- C2 (amended): an unresolved usemtl name is logged and parsing
continues without an exception, the current material index becomes −1,
every vertex of a face built under index −1 carries material −1, and each
face vertex contributes its stored material index verbatim to the
getMaterials buffer (so those vertices read −1 there, not 0; the shader
maps any out-of-range index, including −1, to the default material at
slot 0 downstream). -/
theorem usemtl_unresolved_fallback (st : ObjectParser) (line nm : String)
    (hparts : line.trim.splitOn " " = ["usemtl", nm])
    (hq : nm.replace "\"" "" = nm)
    (hmiss : jsIndexOfFrom (alKeys st.materials) nm 1 = -1) :
    parseOBJLine st line = Except.ok { st with
        currentMaterialIdx := -1
        log := st.log ++ ["Couldnt find material " ++ nm ++ " in the .mtl file"] } ∧
    (∀ toks fv, fv ∈ buildFace (-1 : ℤ) toks → fv.material = -1) ∧
    (∀ q : ObjectParser, ∀ face ∈ q.allFaces, ∀ fv ∈ face,
        fv.material ∈ q.getMaterialsIndices) := by
  refine ⟨?_, ?_, ?_⟩
  · simp [parseOBJLine, hparts, hq, hmiss]
  · intro toks fv hfv
    simp only [buildFace, List.mem_map] at hfv
    obtain ⟨t, -, rfl⟩ := hfv
    rfl
  · intro q face hface fv hfv
    exact List.mem_flatMap.mpr ⟨face, hface, List.mem_map.mpr ⟨fv, hfv, rfl⟩⟩

/-- Witness for C2 at the unresolved name ghost against the constructor
materials table. -/
theorem usemtl_unresolved_fallback_witness :
    parseOBJLine { materials := [("default", MaterialBuffer.make "default")] }
        "usemtl ghost"
      = Except.ok { ({ materials := [("default", MaterialBuffer.make "default")] }
            : ObjectParser) with
          currentMaterialIdx := -1
          log := ({ materials := [("default", MaterialBuffer.make "default")] }
            : ObjectParser).log ++ ["Couldnt find material ghost in the .mtl file"] } :=
  (usemtl_unresolved_fallback
    { materials := [("default", MaterialBuffer.make "default")] } "usemtl ghost" "ghost"
    (by with_unfolding_all decide) (by with_unfolding_all decide)
    (by with_unfolding_all decide)).1

/-- Helper: a constant flatMap over List.range concatenates n copies. -/
theorem range_flatMap_const {γ : Type} (n : ℕ) (l : List γ) :
    ((List.range n).flatMap fun _ => l) = List.flatten (List.replicate n l) := by
  induction n with
  | zero => rfl
  | succ i ih => simp [List.range_succ, List.replicate_succ', ih]

/-- Helper: calculateNormal is the normalization of the cross product of
the edge vectors, whenever the computed length is nonzero (so that the
normalize zero-branch is not taken and both divide by the same
Math.sqrt value). -/
theorem calculateNormal_eq_normalize (M : MathLib) (a b c : List ℚ)
    (h : Vector3D.magnitude M
        (((vecOfList b).subtract (vecOfList a)).cross
          ((vecOfList c).subtract (vecOfList a))) ≠ 0) :
    ObjectParser.calculateNormal M a b c
      = (Vector3D.normalize M
          (((vecOfList b).subtract (vecOfList a)).cross
            ((vecOfList c).subtract (vecOfList a)))).getElements := by
  unfold Vector3D.magnitude at h
  unfold ObjectParser.calculateNormal Vector3D.normalize Vector3D.magnitude
    Vector3D.getElements vecOfList Vector3D.cross Vector3D.subtract
  unfold vecOfList Vector3D.cross Vector3D.subtract at h
  rw [if_neg h]

/-- C5: a face none of whose vertices carries a normal index takes the
flat-shading branch: the per-face normal buffer is the same 3-vector
repeated once per face vertex, and that vector is the normalization of
the cross product (v1 − v0) × (v2 − v0) of the face's first three vertex
positions (hypothesis: the Math.sqrt length of the cross product is
nonzero, i.e. the face is not degenerate). -/
theorem flat_normal_broadcast (M : MathLib) (p : ObjectParser)
    (v0 v1 v2 : FaceVertex) (rest : List FaceVertex)
    (hnone : ∀ fv ∈ (v0 :: v1 :: v2 :: rest), fv.normalIndex = -1)
    (hlen : Vector3D.magnitude M
        (((p.facePosition v1).subtract (p.facePosition v0)).cross
          ((p.facePosition v2).subtract (p.facePosition v0))) ≠ 0) :
    p.faceNormals M (v0 :: v1 :: v2 :: rest)
      = Except.ok (List.flatten
          (List.replicate (v0 :: v1 :: v2 :: rest).length
            (Vector3D.normalize M
              (((p.facePosition v1).subtract (p.facePosition v0)).cross
                ((p.facePosition v2).subtract (p.facePosition v0)))).getElements)) := by
  have h0 : v0.normalIndex = -1 := hnone v0 (by simp)
  unfold ObjectParser.facePosition at hlen ⊢
  simp only [ObjectParser.faceNormals, h0]
  rw [range_flatMap_const, calculateNormal_eq_normalize M _ _ _ hlen]
  simp

/-- The identity interpretation of the Math functions, exact on the
witness inputs below where every length under a sqrt is 0 or 1. -/
def mathId : MathLib := ⟨fun q => q, fun q => q, fun q => q⟩

/-- A parser state holding the unit right triangle in the xy plane. -/
def sampleTriangleParser : ObjectParser :=
  { vertices := [0, 0, 0, 1, 0, 0, 0, 1, 0] }

/-- A face vertex with only a vertex index (no texcoord/normal/material). -/
def sampleFV (i : ℤ) : FaceVertex := ⟨i, -1, -1, -1⟩

/-- Witness for C5 on the unit triangle: the cross product is (0,0,1) of
length 1, and the flat normal (0,0,1) is pushed for all three
vertices. -/
theorem flat_normal_broadcast_witness :
    (Vector3D.magnitude mathId
        (((sampleTriangleParser.facePosition (sampleFV 1)).subtract
            (sampleTriangleParser.facePosition (sampleFV 0))).cross
          ((sampleTriangleParser.facePosition (sampleFV 2)).subtract
            (sampleTriangleParser.facePosition (sampleFV 0)))) ≠ 0) ∧
    sampleTriangleParser.faceNormals mathId [sampleFV 0, sampleFV 1, sampleFV 2]
      = Except.ok (List.flatten
          (List.replicate ([sampleFV 0, sampleFV 1, sampleFV 2]).length
            (Vector3D.normalize mathId
              (((sampleTriangleParser.facePosition (sampleFV 1)).subtract
                  (sampleTriangleParser.facePosition (sampleFV 0))).cross
                ((sampleTriangleParser.facePosition (sampleFV 2)).subtract
                  (sampleTriangleParser.facePosition (sampleFV 0))))).getElements)) :=
  ⟨by with_unfolding_all decide,
   flat_normal_broadcast mathId sampleTriangleParser (sampleFV 0) (sampleFV 1) (sampleFV 2)
     [] (by with_unfolding_all decide) (by with_unfolding_all decide)⟩

/-- Embedding of class RenderObjectPart (src/objects/renderobject.js:5-29):
per-part index/line-index/material-index lengths. -/
structure RenderObjectPart where
  indexLenght : ℕ
  lineIndexLenght : ℕ
  materialsIndexLength : ℕ
deriving DecidableEq

/-- Embedding of class RenderObject (src/objects/renderobject.js:36-216).
The constructor sets transformation to the identity and renderData to the
vertexData; texture handles are external image objects, modelled as
opaque optional names. -/
structure RenderObject where
  transformation : TransformationMatrix := TransformationMatrix.identityTM
  vertexData : List ℚ := []
  renderData : List ℚ := []
  textureData : List ℚ := []
  normalsData : List ℚ := []
  materials : List MaterialBuffer := []
  invertCoords : Bool := false
  parts : List RenderObjectPart := []
  objectXAxis : Vector3D := ⟨1, 0, 0⟩
  objectYAxis : Vector3D := ⟨0, 1, 0⟩
  objectZAxis : Vector3D := ⟨0, 0, 1⟩
  diffuseTexture : Option String := none
  normalTexture : Option String := none
  specularTexture : Option String := none
  partialTextures : List String := []
  indexData : List ℕ := []
  lineIndexData : List ℕ := []
  materialIndexData : List ℤ := []
deriving DecidableEq

/-- The loop body of #applyTransformations
(src/objects/renderobject.js:89-98): vertexData is walked three floats at
a time, each triple transformed and its x,y,z pushed.  A trailing
fragment of one or two floats would read undefined (NaN) in the source;
it is padded with 0 here (no claim transforms such data, and C7 assumes a
multiple of three). -/
def transformPositions (t : TransformationMatrix) : List ℚ → List ℚ
  | x :: y :: z :: rest => (t.transform ⟨x, y, z⟩).getElements ++ transformPositions t rest
  | [x, y] => (t.transform ⟨x, y, 0⟩).getElements
  | [x] => (t.transform ⟨x, 0, 0⟩).getElements
  | [] => []

/-- Source #applyTransformations: recompute renderData from the
untransformed vertexData under the current transformation. -/
def RenderObject.applyTransformations (o : RenderObject) : RenderObject :=
  { o with renderData := transformPositions o.transformation o.vertexData }

/-- Source move(direction) (src/objects/renderobject.js:120-124):
right-multiply by a translation matrix, then re-apply. -/
def RenderObject.move (o : RenderObject) (direction : Vector3D) : RenderObject :=
  let translationMatrix := TransformationMatrix.createTraslationMatrix direction
  ({ o with transformation := o.transformation.multiply translationMatrix }).applyTransformations

/-- Source rotate(x, y, z) (src/objects/renderobject.js:132-136):
right-multiply by the composed rotation matrix, then re-apply. -/
def RenderObject.rotate (o : RenderObject) (M : MathLib) (x y z : ℚ) : RenderObject :=
  let rotationMatrix := TransformationMatrix.createRotationMatrix M x y z
  ({ o with transformation := o.transformation.multiply rotationMatrix }).applyTransformations

/-- Source setPosition(position) (src/objects/renderobject.js:142-145):
setTraslation mutates the translation slots of the current matrix in
place, then re-apply. -/
def RenderObject.setPosition (o : RenderObject) (position : Vector3D) : RenderObject :=
  ({ o with transformation := o.transformation.setTraslation position }).applyTransformations

/-- Source resetTransformations() (src/objects/renderobject.js:160-163):
back to the identity, then re-apply. -/
def RenderObject.resetTransformations (o : RenderObject) : RenderObject :=
  ({ o with transformation := TransformationMatrix.identityTM }).applyTransformations

/-- Helper: the identity matrix elements, spelled out. -/
theorem identityTM_elements :
    TransformationMatrix.identityTM.elements
      = [1, 0, 0, 0, 0, 1, 0, 0, 0, 0, 1, 0, 0, 0, 0, 1] := by
  with_unfolding_all decide

/-- Helper: transforming by the identity matrix returns the vector
unchanged (w = 1, each component x·1 + 0). -/
theorem identityTM_transform (v : Vector3D) :
    TransformationMatrix.identityTM.transform v = v := by
  unfold TransformationMatrix.transform TransformationMatrix.get Vector3D.scale
  rw [identityTM_elements]
  cases v
  simp

/-- Helper: the applyTransformations loop under the identity matrix
reproduces a well-formed (length divisible by three) vertex pool. -/
theorem transformPositions_identityTM :
    ∀ vd : List ℚ, vd.length % 3 = 0 →
      transformPositions TransformationMatrix.identityTM vd = vd
  | [] => fun _ => rfl
  | [x] => fun h => by simp at h
  | [x, y] => fun h => by simp at h
  | x :: y :: z :: rest => fun h => by
      have hr : rest.length % 3 = 0 := by
        simp only [List.length_cons] at h
        omega
      simp only [transformPositions, identityTM_transform, Vector3D.getElements]
      rw [transformPositions_identityTM rest hr]
      rfl

/-- C7: after move(Δ1), move(Δ2) and resetTransformations(), the
recomputed render positions equal the originally parsed vertex positions
exactly (the untransformed pool is never modified, and the identity
re-transform is the identity on each triple); hypothesis: the vertex
pool is a whole number of 3-float positions. -/
theorem move_move_reset_restores (o : RenderObject) (d1 d2 : Vector3D)
    (h : o.vertexData.length % 3 = 0) :
    (((o.move d1).move d2).resetTransformations).renderData = o.vertexData ∧
    (((o.move d1).move d2).resetTransformations).vertexData = o.vertexData := by
  refine ⟨?_, rfl⟩
  show transformPositions TransformationMatrix.identityTM o.vertexData = o.vertexData
  exact transformPositions_identityTM o.vertexData h

/-- A small object: one vertex, identity transform. -/
def sampleRenderObject : RenderObject :=
  { vertexData := [1, 2, 3], renderData := [1, 2, 3] }

/-- Witness for C7 on the one-vertex object. -/
theorem move_move_reset_restores_witness :
    sampleRenderObject.vertexData.length % 3 = 0 ∧
    (((sampleRenderObject.move ⟨1, 1, 1⟩).move ⟨2, 0, 0⟩).resetTransformations).renderData
      = sampleRenderObject.vertexData :=
  ⟨by decide,
   (move_move_reset_restores sampleRenderObject ⟨1, 1, 1⟩ ⟨2, 0, 0⟩ (by decide)).1⟩

/-- Helper: getD after set at the written position. -/
theorem getD_set_self (l : List ℚ) (i : ℕ) (a d : ℚ) (h : i < l.length) :
    (l.set i a).getD i d = a := by
  rw [List.getD_eq_getElem _ _ (by simpa using h)]
  simp [List.getElem_set_self]

/-- Helper: getD after set at another position. -/
theorem getD_set_ne (l : List ℚ) (i j : ℕ) (a d : ℚ) (h : i ≠ j) :
    (l.set i a).getD j d = l.getD j d := by
  by_cases hj : j < l.length
  · rw [List.getD_eq_getElem _ _ (by simpa using hj), List.getD_eq_getElem _ _ hj]
    simp [List.getElem_set_ne h]
  · rw [List.getD_eq_default _ _ (by simpa using hj), List.getD_eq_default _ _ (by omega)]

/-- C10: each mutator rebuilds the object with only the transformation
and the derived renderData changed — vertexData, textureData,
normalsData, indexData, lineIndexData, materialIndexData, materials and
every other constructor field are carried over unchanged (stated as a
whole-record equation per mutator) — and setPosition rewrites exactly
the translation slots 3, 7 and 11 of the transform, leaving every other
element in place. -/
theorem mutators_touch_only_transform (M : MathLib) (o : RenderObject) (d : Vector3D)
    (x y z : ℚ) (pos : Vector3D) (hlen : o.transformation.elements.length = 16) :
    (o.move d = { o with transformation := (o.move d).transformation
                         renderData := (o.move d).renderData }) ∧
    (o.rotate M x y z = { o with transformation := (o.rotate M x y z).transformation
                                 renderData := (o.rotate M x y z).renderData }) ∧
    (o.setPosition pos = { o with transformation := (o.setPosition pos).transformation
                                  renderData := (o.setPosition pos).renderData }) ∧
    (o.resetTransformations
      = { o with transformation := o.resetTransformations.transformation
                 renderData := o.resetTransformations.renderData }) ∧
    ((o.setPosition pos).transformation.elements.getD 3 0 = pos.x ∧
     (o.setPosition pos).transformation.elements.getD 7 0 = pos.y ∧
     (o.setPosition pos).transformation.elements.getD 11 0 = pos.z) ∧
    (∀ i : ℕ, i ≠ 3 → i ≠ 7 → i ≠ 11 →
      (o.setPosition pos).transformation.elements.getD i 0
        = o.transformation.elements.getD i 0) := by
  refine ⟨rfl, rfl, rfl, rfl, ⟨?_, ?_, ?_⟩, ?_⟩
  · show ((((o.transformation.elements.set 3 pos.x).set 7 pos.y).set 11 pos.z).getD 3 0)
      = pos.x
    rw [getD_set_ne _ _ _ _ _ (by decide), getD_set_ne _ _ _ _ _ (by decide)]
    exact getD_set_self _ _ _ _ (by omega)
  · show ((((o.transformation.elements.set 3 pos.x).set 7 pos.y).set 11 pos.z).getD 7 0)
      = pos.y
    rw [getD_set_ne _ _ _ _ _ (by decide)]
    exact getD_set_self _ _ _ _ (by simp [hlen])
  · show ((((o.transformation.elements.set 3 pos.x).set 7 pos.y).set 11 pos.z).getD 11 0)
      = pos.z
    exact getD_set_self _ _ _ _ (by simp [hlen])
  · intro i h3 h7 h11
    show ((((o.transformation.elements.set 3 pos.x).set 7 pos.y).set 11 pos.z).getD i 0)
      = o.transformation.elements.getD i 0
    rw [getD_set_ne _ _ _ _ _ (Ne.symm h11), getD_set_ne _ _ _ _ _ (Ne.symm h7),
      getD_set_ne _ _ _ _ _ (Ne.symm h3)]

/-- Witness for C10 on the one-vertex object with the identity
transform. -/
theorem mutators_touch_only_transform_witness :
    sampleRenderObject.transformation.elements.length = 16 ∧
    (sampleRenderObject.move ⟨1, 2, 3⟩
      = { sampleRenderObject with
            transformation := (sampleRenderObject.move ⟨1, 2, 3⟩).transformation
            renderData := (sampleRenderObject.move ⟨1, 2, 3⟩).renderData }) ∧
    (sampleRenderObject.setPosition ⟨4, 5, 6⟩).transformation.elements.getD 3 0
      = (⟨4, 5, 6⟩ : Vector3D).x :=
  ⟨by with_unfolding_all decide,
   (mutators_touch_only_transform mathId sampleRenderObject ⟨1, 2, 3⟩ 0 0 0 ⟨4, 5, 6⟩
     (by with_unfolding_all decide)).1,
   ((mutators_touch_only_transform mathId sampleRenderObject ⟨1, 2, 3⟩ 0 0 0 ⟨4, 5, 6⟩
     (by with_unfolding_all decide)).2.2.2.2.1).1⟩

end GraphicsEngine
